import Mathlib

/-!
Shallow embedding of `src/summary/summary_service.py` (dialog-ai).

Strings are modelled as `List Char` (Lean `String.data`), and the Python regex
substitutions used by the service are embedded as explicit, executable
functions.  Every pattern in the source anchors at the start (`^`) or the end
(`$`) of the string and is built from literal words, `\s*` runs and optional
single separators, so each substitution is realised as a deterministic
prefix/suffix parser; where regex backtracking could in principle occur the
alternatives start with pairwise distinct, non-whitespace characters, so the
greedy parse below coincides with Python's leftmost match.
-/

namespace SummaryService

/-- Whitespace as matched by Python `str.strip()` and regex `\s` on the
character set exercised by this service (ASCII whitespace). -/
def isPySpace (c : Char) : Bool :=
  c = ' ' || c = '\t' || c = '\n' || c = '\x0d' || c = '\x0b' || c = '\x0c'

/-- The double-quote character removed by `clean_text`. -/
def dquote : Char := Char.ofNat 34

/-- The single-quote character removed by `clean_text`. -/
def squote : Char := Char.ofNat 39

/-- Greedy `\s*`: drop the leading whitespace run (also the leading-strip half
of Python `str.strip()`). -/
def skipSpaces : List Char → List Char
  | [] => []
  | c :: rest => if isPySpace c then skipSpaces rest else c :: rest

/-- Trailing-strip half of Python `str.strip()`. -/
def stripEndL (l : List Char) : List Char := (skipSpaces l.reverse).reverse

/-- Python `str.strip()` on char lists. -/
def pyStripL (l : List Char) : List Char := stripEndL (skipSpaces l)

/-- Python `str.strip()`. -/
def pyStrip (s : String) : String := ⟨pyStripL s.data⟩

/-- Match a literal word at the head of the list, returning the remainder. -/
def dropLit : List Char → List Char → Option (List Char)
  | [], rest => some rest
  | _ :: _, [] => none
  | w :: ws, c :: rest => if c = w then dropLit ws rest else none

/-- Greedy `\s*[:\-]?\s*` (also used for `\s*[-:]?\s*`; the character class is
the same set). -/
def sepSpaces (l : List Char) : List Char :=
  match skipSpaces l with
  | c :: rest => if c = ':' || c = '-' then skipSpaces rest else c :: rest
  | [] => []

/-- Step 1 of `clean_text` (line 203): `re.sub(r'\*\*|__|\#\#|\#', '', text)`.
Python scans left to right, trying the alternatives in order at each position;
`##` is removed by two applications of the `#` branch, with the same result. -/
def demark : List Char → List Char
  | [] => []
  | [c] => if c = '#' then [] else [c]
  | a :: b :: rest =>
    if a = '*' && b = '*' then demark rest
    else if a = '_' && b = '_' then demark rest
    else if a = '#' then demark (b :: rest)
    else a :: demark (b :: rest)

/-- Anchored label pattern `^LABEL\s*[:\-]?\s*` (the keyword task's pattern
`^키워드\s*[:\-]?\s*`, line 223): strip the label and separator if present. -/
def stripLabelOnly (label l : List Char) : List Char :=
  match dropLit label l with
  | some r => sepSpaces r
  | none => l

/-- Anchored pattern `^(QUAL\s*)?LABEL\s*[:\-]?\s*` (lines 210-212): Python
first tries the optional qualifier group greedily; if the label does not follow
it backtracks to the empty group and requires the label at position 0. -/
def stripLabelQual (qual label l : List Char) : List Char :=
  match dropLit qual l with
  | some r1 =>
    match dropLit label (skipSpaces r1) with
    | some r2 => sepSpaces r2
    | none => stripLabelOnly label l
  | none => stripLabelOnly label l

/-- The four task prefix patterns passed to `clean_text` (lines 210-212, 223). -/
inductive TaskPat where
  | purpose
  | agenda
  | overall
  | keyword
deriving DecidableEq

/-- Apply a task prefix pattern, i.e. step 2 of `clean_text` (line 205):
`re.sub(prefix_pattern, '', text, flags=re.IGNORECASE)`.  All four patterns
consist of Korean words and symbols, so `IGNORECASE` has no effect. -/
def applyPat : TaskPat → List Char → List Char
  | .purpose, l => stripLabelQual "회의".data "목적".data l
  | .agenda, l => stripLabelQual "주요".data "안건".data l
  | .overall, l => stripLabelQual "전체".data "요약".data l
  | .keyword, l => stripLabelOnly "키워드".data l

/-- Characters kept by step 3 of `clean_text` (line 207):
`text.replace('"', '').replace("'", "")`. -/
def keepChar (c : Char) : Bool := !(c = dquote || c = squote)

/-- Step 3 of `clean_text` without the final strip. -/
def removeQuotes (l : List Char) : List Char := l.filter keepChar

/-- `clean_text(text, prefix_pattern)` (lines 201-208) on char lists. -/
def cleanTextL (l : List Char) (p : TaskPat) : List Char :=
  pyStripL (removeQuotes (applyPat p (demark l)))

/-- `clean_text(text, prefix_pattern)` (lines 201-208). -/
def cleanText (s : String) (p : TaskPat) : String := ⟨cleanTextL s.data p⟩


/-- `Importance` DTO (lines 47-49). -/
structure Importance where
  level : String
  reason : String
deriving DecidableEq

/-- Substring test: Python `needle in hay` for strings.  Arguments: haystack
first, then needle. -/
def containsL : List Char → List Char → Bool
  | hay, needle =>
    match hay with
    | [] => needle.isEmpty
    | _ :: rest => startsWithL needle hay || containsL rest needle
where
  /-- Does the second list start with the first? -/
  startsWithL : List Char → List Char → Bool
    | [], _ => true
    | _ :: _, [] => false
    | a :: as, b :: bs => a = b && startsWithL as bs

/-- The level computation of `analyze_importance` (lines 86-94).  `str.lower`
is modelled by `Char.toLower`, which agrees with Python on the code points this
service searches for (unaffected Korean syllables and ASCII letters). -/
def levelOf (summary : String) : String :=
  let lowerSummary := summary.data.map Char.toLower
  if containsL lowerSummary "높음".data || containsL lowerSummary "critical".data
      || containsL lowerSummary "긴급".data then "높음"
  else if containsL lowerSummary "낮음".data || containsL lowerSummary "일상".data
      || containsL lowerSummary "단순".data then "낮음"
  else if containsL lowerSummary "보통".data then "보통"
  else "보통"

/-- Match one of the alternatives `(높음|보통|낮음)` at the head of the list.
The three words start with distinct characters, so Python's leftmost-first
alternation is deterministic here. -/
def levelWordAt (l : List Char) : Option (List Char) :=
  match dropLit "높음".data l with
  | some r => some r
  | none =>
    match dropLit "보통".data l with
    | some r => some r
    | none => dropLit "낮음".data l

/-- First reason substitution (line 96):
`re.sub(r'^(중요도\s*평가\s*[:\-]?\s*)?(높음|보통|낮음)\s*[-:]?\s*', '', summary)`.
The optional label group is tried greedily; if the level word does not follow
it, Python backtracks to the empty group and requires the level word at
position 0.  `IGNORECASE` has no effect on these Korean alternatives. -/
def stripLevelLabel (l : List Char) : List Char :=
  let noLabel : List Char :=
    match levelWordAt l with
    | some r => sepSpaces r
    | none => l
  match dropLit "중요도".data l with
  | some r1 =>
    match dropLit "평가".data (skipSpaces r1) with
    | some r2 =>
      match levelWordAt (sepSpaces r2) with
      | some r3 => sepSpaces r3
      | none => noLabel
    | none => noLabel
  | none => noLabel

/-- Second reason substitution (line 97): `re.sub(r'^이유\s*:\s*', '', ...)`. -/
def stripReasonLabel (l : List Char) : List Char :=
  match dropLit "이유".data l with
  | some r =>
    match skipSpaces r with
    | c :: rest => if c = ':' then skipSpaces rest else l
    | [] => l
  | none => l

/-- Does the whole list match `중요도가\s*"(높음|보통|낮음)"으로\s*판단됩니다\.?`
up to its end?  (The `$` of line 98 is end of string here: the input has been
stripped by the preceding steps, so Python's before-final-newline case of `$`
cannot arise.) -/
def tailTemplateMatch (l : List Char) : Bool :=
  match dropLit "중요도가".data l with
  | none => false
  | some r1 =>
    match skipSpaces r1 with
    | c :: r2 =>
      if c = dquote then
        match levelWordAt r2 with
        | some (c2 :: r4) =>
          if c2 = dquote then
            match dropLit "으로".data r4 with
            | some r5 =>
              match dropLit "판단됩니다".data (skipSpaces r5) with
              | some r6 => r6 = [] || r6 = ['.']
              | none => false
            | none => false
          else false
        | some [] => false
        | none => false
      else false
    | [] => false

/-- Third reason substitution (line 98): remove a trailing templated sentence.
`re.sub` scans left to right, so the leftmost position whose remainder matches
the end-anchored template is removed. -/
def stripTailTemplate : List Char → List Char
  | [] => []
  | c :: rest =>
    if tailTemplateMatch (c :: rest) then [] else c :: stripTailTemplate rest

/-- The cleaned reason of `analyze_importance` before the empty fallback
(lines 96-98), each substitution followed by `.strip()`. -/
def cleanReasonL (l : List Char) : List Char :=
  pyStripL (stripTailTemplate (pyStripL (stripReasonLabel (pyStripL (stripLevelLabel l)))))

/-- `analyze_importance(summary)` (lines 85-103). -/
def analyzeImportance (summary : String) : Importance :=
  let cleanReason := cleanReasonL summary.data
  { level := levelOf summary
    reason := if cleanReason = [] then summary else ⟨cleanReason⟩ }

/-- `map_importance_to_enum(korean_level)` (lines 77-83). -/
def mapImportanceToEnum (koreanLevel : String) : String :=
  if containsL koreanLevel.data "높음".data || containsL koreanLevel.data "긴급".data
      || containsL koreanLevel.data "중요".data then "HIGH"
  else if containsL koreanLevel.data "낮음".data then "LOW"
  else "MEDIUM"


/-- Python `str.split(',')` on char lists: split at every comma, keeping empty
pieces (`''.split(',') == ['']`). -/
def splitCommaL : List Char → List (List Char)
  | [] => [[]]
  | c :: rest =>
    if c = ',' then [] :: splitCommaL rest
    else
      match splitCommaL rest with
      | h :: t => (c :: h) :: t
      | [] => [[c]]

/-- Python `str.split(',')`. -/
def pySplitComma (s : String) : List String := (splitCommaL s.data).map (fun l => ⟨l⟩)

/-- Keyword parsing (lines 223-224): clean with the keyword pattern, then the
comprehension `[k.strip() for k in keywords_text.split(',') if k.strip()]`. -/
def parseKeywords (keywordsRaw : String) : List String :=
  (pySplitComma (cleanText keywordsRaw TaskPat.keyword)).filterMap
    (fun k => if pyStrip k = "" then none else some (pyStrip k))


/-- `Transcript` DTO (lines 36-39). -/
structure Transcript where
  speaker : String
  time : String := ""
  text : String

/-- `SummaryRequest` DTO (lines 41-45).  The Python `Dict[str, str]` speaker
mapping is modelled as an association list with distinct keys looked up by
`List.lookup`.  The `meetingDate` default is modelled separately (see
`meetingDateDefault`), because in Python it is an expression evaluated once. -/
structure SummaryRequest where
  transcripts : List Transcript
  meetingDate : String
  speakerMapping : List (String × String) := []
  userJob : String := "general"

set_option linter.unusedVariables false in
/-- The default value of `SummaryRequest.meetingDate` (line 43):
`datetime.now().strftime("%Y-%m-%d")` appears as a class-attribute default, so
Python evaluates it exactly once, when the class body executes at module load;
every construction that omits `meetingDate` then receives that stored string.
Both relevant instants are passed in as already-formatted `YYYY-MM-DD` dates to
keep the embedding free of real time. -/
def meetingDateDefault (moduleLoadDate constructionDate : String) : String :=
  moduleLoadDate

/-- Construct a `SummaryRequest` that omits `meetingDate`, at a moment when the
current date is `constructionDate`, in a process whose module was loaded when
the current date was `moduleLoadDate`. -/
def mkSummaryRequestDefault (moduleLoadDate constructionDate : String)
    (transcripts : List Transcript) : SummaryRequest :=
  { transcripts := transcripts
    meetingDate := meetingDateDefault moduleLoadDate constructionDate }

/-- One flattened conversation line (line 182):
`f"{display_name} ({t.time}): {t.text}"` with the speaker-mapping fallback of
line 181 (`request.speakerMapping.get(t.speaker, t.speaker)`). -/
def renderLine (speakerMapping : List (String × String)) (t : Transcript) : String :=
  let displayName := (List.lookup t.speaker speakerMapping).getD t.speaker
  displayName ++ " (" ++ t.time ++ "): " ++ t.text

/-- The `conversation_lines` accumulation loop of lines 179-182. -/
def conversationLines (request : SummaryRequest) : List String :=
  request.transcripts.foldl (fun acc t => acc ++ [renderLine request.speakerMapping t]) []

/-- `conversation_text = "\n".join(conversation_lines)` (line 183). -/
def conversationText (request : SummaryRequest) : String :=
  String.intercalate "\n" (conversationLines request)


/-- Python exception values that `call_hyperclova` can raise or handle:
`httpx.HTTPStatusError` (from `raise_for_status`), `fastapi.HTTPException`, a
`KeyError` from the prompt-dictionary lookup, and any other exception
(e.g. JSON decoding) carrying its message. -/
inductive PyExc where
  | httpStatusError (statusCode : Nat) (respText : String)
  | httpException (statusCode : Nat) (detail : String)
  | keyError (key : String)
  | otherExc (msg : String)
deriving DecidableEq

/-- Python `str(e)` as used by the f-string on line 173.  For
`fastapi.HTTPException` (starlette) this renders `f"{status_code}: {detail}"`.
The other renderings are irrelevant to the claims: `httpStatusError` is always
intercepted by its dedicated handler first, and `keyError` is raised outside
the `try` block and never formatted. -/
def excStr : PyExc → String
  | .httpStatusError _ t => t
  | .httpException c d => Nat.repr c ++ ": " ++ d
  | .keyError k => k
  | .otherExc m => m

/-- The provider payload's `status` object, restricted to the two keys the
code reads. -/
structure ClovaStatus where
  code : Option String := none
  message : Option String := none

/-- The provider payload's `result.message` object. -/
structure ClovaMessage where
  content : Option String := none

/-- The provider payload's `result` object. -/
structure ClovaResult where
  message : Option ClovaMessage := none
  text : Option String := none

/-- The decoded JSON payload of a provider response, restricted to the keys
the code reads; `none` models an absent key. -/
structure ClovaData where
  status : Option ClovaStatus := none
  result : Option ClovaResult := none

/-- One HTTP response from the provider as observed by `call_hyperclova`:
transport status code, raw body text (used in the `HTTPStatusError` handler of
line 170), and the decoded JSON payload (`none` models a body that is not
valid JSON, so that `response.json()` raises). -/
structure HttpResponse where
  statusCode : Nat
  respText : String := ""
  jsonData : Option ClovaData := none

/-- `data.get("result", {}).get("message", {}).get("content", "")` (line 164). -/
def contentField (data : ClovaData) : String :=
  match data.result with
  | none => ""
  | some r =>
    match r.message with
    | none => ""
    | some m => m.content.getD ""

/-- `data.get("result", {}).get("text", "")` (line 165). -/
def textField (data : ClovaData) : String :=
  match data.result with
  | none => ""
  | some r => r.text.getD ""

/-- Lines 164-166: `result_text = content_chain or text_chain` (Python `or`
takes the second operand when the first is the empty string) followed by
`result_text.strip()`. -/
def extractResultText (data : ClovaData) : String :=
  pyStrip (if contentField data = "" then textField data else contentField data)

/-- Python f-string rendering of an `Optional[str]` (line 162 interpolates
`data['status'].get('message')`, which is `None` when the key is absent). -/
def pyNoneStr : Option String → String
  | some s => s
  | none => "None"

/-- The body of the `try` block (lines 157-166): `raise_for_status` raises
`httpx.HTTPStatusError` for any non-2xx transport status; `response.json()`
raises on an undecodable body; the payload status check of lines 161-162 fires
when the `status` dict is truthy (present and non-empty) and its `code` is not
`"20000"`; otherwise the completion text is extracted. -/
def tryBody (resp : HttpResponse) : Except PyExc String :=
  if resp.statusCode < 200 ∨ 300 ≤ resp.statusCode then
    Except.error (.httpStatusError resp.statusCode resp.respText)
  else
    match resp.jsonData with
    | none => Except.error (.otherExc "Expecting value: line 1 column 1 (char 0)")
    | some data =>
      match data.status with
      | some st =>
        if (st.code.isSome ∨ st.message.isSome) ∧ st.code ≠ some "20000" then
          Except.error (.httpException 500 ("HyperCLOVA API 오류: " ++ pyNoneStr st.message))
        else Except.ok (extractResultText data)
      | none => Except.ok (extractResultText data)

/-- `JOB_PERSONAS['general']` (line 31). -/
def personaGeneralStr : String :=
  "당신은 회의록 작성 전문가입니다. 회의 내용을 명확하고 간결하게 요약합니다."

/-- The `JOB_PERSONAS` dictionary (lines 25-32). -/
def jobPersonas (job : String) : Option String :=
  if job = "PROJECT_MANAGER" then
    some "당신은 프로젝트 관리자(PM)입니다. 일정, 리소스, 주요 결정사항을 중요하게 봅니다."
  else if job = "FRONTEND_DEVELOPER" then
    some "당신은 프론트엔드 개발자입니다. UI/UX, API 연동, 사용자 인터랙션을 중요하게 봅니다."
  else if job = "BACKEND_DEVELOPER" then
    some "당신은 백엔드 개발자입니다. API 설계, 데이터베이스, 서버 아키텍처, 성능을 중요하게 봅니다."
  else if job = "DATABASE_ADMINISTRATOR" then
    some "당신은 데이터베이스 관리자(DBA)입니다. 데이터 모델링, 쿼리, 데이터 무결성을 중요하게 봅니다."
  else if job = "SECURITY_DEVELOPER" then
    some "당신은 보안 전문가입니다. 인증, 인가, 데이터 암호화, 취약점을 중요하게 봅니다."
  else if job = "general" then some personaGeneralStr
  else none

/-- The `prompts` dictionary lookup `prompts[task_type]` (lines 118-124, 145):
`some` of the task's interpolated template, `none` (a `KeyError`) for any
other task type. -/
def promptFor (conversationText taskType personaUser : String) : Option String :=
  if taskType = "회의목적" then
    some ("다음 회의의 핵심 목적을 \x27명사형 종결 어미\x27(~함, ~논의 등)로 끝나는 한 문장으로 요약하세요.\n\n[대화]\n"
      ++ conversationText ++ "\n\n회의 목적:")
  else if taskType = "주요안건" then
    some ("회의에서 논의된 주요 안건 3~5가지를 쉼표(,)로 구분하여 단답형으로 나열하세요. (예: 예산 확정, 일정 조율)\n\n[대화]\n"
      ++ conversationText ++ "\n\n주요 안건:")
  else if taskType = "전체요약" then
    some ("회의 내용을 서술형으로 자연스럽게 요약하세요. 결정된 사항과 향후 계획 위주로 3문장 내외로 작성하세요.\n\n[대화]\n"
      ++ conversationText ++ "\n\n전체 요약:")
  else if taskType = "중요도" then
    some ("[" ++ personaUser ++ "] 관점에서 이 회의의 중요도를 판단하세요.\n형식: [높음/보통/낮음] - [판단 사유 한 문장]\n\n[대화]\n"
      ++ conversationText ++ "\n\n평가:")
  else if taskType = "키워드" then
    some ("[" ++ personaUser ++ "] 관점에서 가장 중요한 핵심 명사 키워드 5개를 쉼표로 구분해 추출하세요.\n\n[대화]\n"
      ++ conversationText ++ "\n\n키워드:")
  else none

/-- The `token_settings` dictionary (lines 130-133). -/
def tokenSettings (taskType : String) : Option Nat :=
  if taskType = "회의목적" then some 100
  else if taskType = "주요안건" then some 100
  else if taskType = "전체요약" then some 150
  else if taskType = "중요도" then some 100
  else if taskType = "키워드" then some 50
  else none

/-- `current_max_tokens = token_settings.get(task_type, 500)` (line 134). -/
def currentMaxTokens (taskType : String) : Nat := (tokenSettings taskType).getD 500

/-- The request payload fields that depend on the inputs (lines 142-154); the
fixed sampling parameters (`topP` 0.8, `topK` 0, `temperature` 0.3,
`repeatPenalty` 5.0, empty `stopBefore`, `includeAiFilters` true) are constants
and are omitted. -/
structure RequestBody where
  systemContent : String
  userContent : String
  maxTokens : Nat
deriving DecidableEq

/-- The part of `call_hyperclova` before the `try` block (lines 115-154):
persona resolution with silent fallback, system-content selection (lines
126-128), token budget, and the `body` construction whose
`prompts[task_type]` lookup raises a plain `KeyError` for an unknown task. -/
def buildRequestBody (conversationText taskType userJob : String) :
    Except PyExc RequestBody :=
  let personaUser := (jobPersonas userJob).getD personaGeneralStr
  let systemContent :=
    if taskType = "중요도" ∨ taskType = "키워드" then personaUser else personaGeneralStr
  match promptFor conversationText taskType personaUser with
  | none => Except.error (.keyError taskType)
  | some userContent => Except.ok ⟨systemContent, userContent, currentMaxTokens taskType⟩

/-- `call_hyperclova` (lines 107-173) as a function of the provider's response.
The `body` construction happens before the `try` block, so its `KeyError`
propagates unwrapped; inside the `try` region, `httpx.HTTPStatusError` is
turned into an `HTTPException` carrying the provider's transport status (line
170), and every other exception — including the `HTTPException` raised by the
payload status check on line 162, since `HTTPException` is a subclass of
`Exception` — is wrapped by the handler of lines 171-173 into
`HTTPException(500, f"API 호출 중 알 수 없는 오류: {e}")`. -/
def callHyperclova (conversationText taskType userJob : String)
    (resp : HttpResponse) : Except PyExc String :=
  match buildRequestBody conversationText taskType userJob with
  | Except.error e => Except.error e
  | Except.ok _ =>
    match tryBody resp with
    | Except.ok s => Except.ok s
    | Except.error (.httpStatusError c t) =>
      Except.error (.httpException c ("HyperCLOVA API 오류: " ++ t))
    | Except.error e =>
      Except.error (.httpException 500 ("API 호출 중 알 수 없는 오류: " ++ excStr e))

/-- The `maxTokens` field actually sent for a given invocation, `none` when no
request is sent because the `body` construction raised. -/
def sentMaxTokens (conversationText taskType userJob : String) : Option Nat :=
  match buildRequestBody conversationText taskType userJob with
  | Except.ok b => some b.maxTokens
  | Except.error _ => none




/-! ## Helper lemmas about the string primitives -/

theorem skipSpaces_idem (l : List Char) : skipSpaces (skipSpaces l) = skipSpaces l := by
  induction l with
  | nil => rfl
  | cons c rest ih =>
    by_cases h : isPySpace c
    · simp [skipSpaces, h, ih]
    · simp [skipSpaces, h]

theorem mem_of_mem_skipSpaces {c : Char} {l : List Char} (h : c ∈ skipSpaces l) : c ∈ l := by
  induction l with
  | nil => simp [skipSpaces] at h
  | cons a rest ih =>
    by_cases ha : isPySpace a
    · rw [skipSpaces, if_pos ha] at h
      exact List.mem_cons_of_mem _ (ih h)
    · rwa [skipSpaces, if_neg ha] at h

theorem mem_of_mem_pyStripL {c : Char} {l : List Char} (h : c ∈ pyStripL l) : c ∈ l := by
  unfold pyStripL stripEndL at h
  rw [List.mem_reverse] at h
  have h2 := mem_of_mem_skipSpaces h
  rw [List.mem_reverse] at h2
  exact mem_of_mem_skipSpaces h2

theorem skipSpaces_length_le (l : List Char) : (skipSpaces l).length ≤ l.length := by
  induction l with
  | nil => simp [skipSpaces]
  | cons c rest ih =>
    by_cases h : isPySpace c
    · rw [skipSpaces, if_pos h]
      exact le_trans ih (Nat.le_succ _)
    · rw [skipSpaces, if_neg h]

theorem skipSpaces_append_last {c : Char} (hc : isPySpace c = false) (l : List Char) :
    ∃ l1, skipSpaces (l ++ [c]) = l1 ++ [c] := by
  induction l with
  | nil => exact ⟨[], by simp [skipSpaces, hc]⟩
  | cons a rest ih =>
    by_cases ha : isPySpace a
    · obtain ⟨l1, h1⟩ := ih
      exact ⟨l1, by rw [List.cons_append, skipSpaces, if_pos ha, h1]⟩
    · exact ⟨a :: rest, by rw [List.cons_append, skipSpaces, if_neg ha]⟩

theorem skipSpaces_stripEndL {l : List Char} (h : skipSpaces l = l) :
    skipSpaces (stripEndL l) = stripEndL l := by
  cases l with
  | nil => rfl
  | cons c rest =>
    have hc : isPySpace c = false := by
      by_cases hc : isPySpace c
      · exfalso
        rw [skipSpaces, if_pos hc] at h
        have := skipSpaces_length_le rest
        rw [h] at this
        simp at this
      · simpa using hc
    obtain ⟨l1, h1⟩ := skipSpaces_append_last hc rest.reverse
    unfold stripEndL
    rw [List.reverse_cons, h1, List.reverse_append]
    simp only [List.reverse_cons, List.reverse_nil, List.nil_append, List.singleton_append]
    rw [skipSpaces, if_neg (by simp [hc])]

theorem stripEndL_idem (l : List Char) : stripEndL (stripEndL l) = stripEndL l := by
  unfold stripEndL
  rw [List.reverse_reverse, skipSpaces_idem]

theorem pyStripL_idem (l : List Char) : pyStripL (pyStripL l) = pyStripL l := by
  unfold pyStripL
  rw [skipSpaces_stripEndL (skipSpaces_idem l), stripEndL_idem]

theorem removeQuotes_pyStripL_removeQuotes (l : List Char) :
    removeQuotes (pyStripL (removeQuotes l)) = pyStripL (removeQuotes l) := by
  unfold removeQuotes
  rw [List.filter_eq_self]
  intro a ha
  exact List.of_mem_filter (mem_of_mem_pyStripL ha)

theorem cleanIdemCore (l : List Char) :
    pyStripL (removeQuotes (pyStripL (removeQuotes l))) = pyStripL (removeQuotes l) := by
  rw [removeQuotes_pyStripL_removeQuotes, pyStripL_idem]

/-! ## Claim theorems -/

/-- C1 counterexample: cleaning is not idempotent.  For the input `*#*` the
first pass removes only the `#`, producing `**`, and the second pass removes
the now-adjacent `**`, producing the empty string.  So
`clean_text(clean_text("*#*", p), p) ≠ clean_text("*#*", p)`. -/
theorem C1_counterexample :
    cleanText (cleanText "*#*" TaskPat.purpose) TaskPat.purpose ≠
      cleanText "*#*" TaskPat.purpose := by
  decide

/-- C1 (amended): cleaning is idempotent on every input whose once-cleaned
string is left unchanged by the markdown-marker removal and by the task prefix
pattern; the remaining steps (quote removal and strip) are always no-ops on a
cleaned string.  Without this restriction idempotence fails (see
`C1_counterexample`). -/
theorem C1_clean_text_idem (x : String) (p : TaskPat)
    (h1 : demark (cleanText x p).data = (cleanText x p).data)
    (h2 : applyPat p (cleanText x p).data = (cleanText x p).data) :
    cleanText (cleanText x p) p = cleanText x p := by
  have key : cleanTextL (cleanText x p).data p = (cleanText x p).data := by
    unfold cleanTextL
    rw [h1, h2]
    show pyStripL (removeQuotes (pyStripL (removeQuotes (applyPat p (demark x.data))))) = _
    rw [cleanIdemCore]
    rfl
  show String.mk (cleanTextL (cleanText x p).data p) = cleanText x p
  rw [key]

theorem C1_clean_text_idem_witness :
    demark (cleanText "회의 목적: 예산안 확정" TaskPat.purpose).data =
      (cleanText "회의 목적: 예산안 확정" TaskPat.purpose).data ∧
    applyPat TaskPat.purpose (cleanText "회의 목적: 예산안 확정" TaskPat.purpose).data =
      (cleanText "회의 목적: 예산안 확정" TaskPat.purpose).data ∧
    cleanText (cleanText "회의 목적: 예산안 확정" TaskPat.purpose) TaskPat.purpose =
      cleanText "회의 목적: 예산안 확정" TaskPat.purpose :=
  ⟨by decide, by decide,
    C1_clean_text_idem "회의 목적: 예산안 확정" TaskPat.purpose (by decide) (by decide)⟩

/-- C2 evaluated at the failing input: a 2xx transport response whose payload
has `status.code = "40001"` and `status.message = "rate limit"`.  The
`HTTPException(500, "HyperCLOVA API 오류: rate limit")` raised by the payload
status check is itself caught by the function's blanket `except Exception`
handler, so the caller receives the generic internal-error wrapping (whose
detail merely embeds the stringified upstream error), not the UpstreamRejected
shape the claim describes; the second conjunct records that the two details
differ. -/
theorem C2_upstream_reject_wrapped :
    callHyperclova "대화" "전체요약" "general"
      ⟨200, "", some ⟨some ⟨some "40001", some "rate limit"⟩, none⟩⟩ =
      Except.error (.httpException 500
        "API 호출 중 알 수 없는 오류: 500: HyperCLOVA API 오류: rate limit") ∧
    ("API 호출 중 알 수 없는 오류: 500: HyperCLOVA API 오류: rate limit" : String) ≠
      "HyperCLOVA API 오류: rate limit" :=
  ⟨rfl, by decide⟩

/-- C3 evaluated at the failing input: the default-`meetingDate` expression is
evaluated once at module load (class-body execution), so a `SummaryRequest`
constructed without `meetingDate` on a later day (2026-10-12, after a module
load on 2026-10-11) still carries the load-time date, contradicting the
claimed construction-time default. -/
theorem C3_meeting_date_frozen :
    (mkSummaryRequestDefault "2026-10-11" "2026-10-12" []).meetingDate = "2026-10-11" ∧
    (mkSummaryRequestDefault "2026-10-11" "2026-10-12" []).meetingDate ≠ "2026-10-12" :=
  ⟨rfl, by decide⟩

/-- The three-way classifier as the claim C4 words it: case-insensitive
substring search, HIGH keywords first, then LOW keywords, else the MEDIUM
default (also when no keyword occurs at all). -/
def specLevel (s : String) : String :=
  let lowered := s.data.map Char.toLower
  if containsL lowered "높음".data || containsL lowered "critical".data
      || containsL lowered "긴급".data then "높음"
  else if containsL lowered "낮음".data || containsL lowered "일상".data
      || containsL lowered "단순".data then "낮음"
  else "보통"

/-- C4: for every input string, `analyze_importance` assigns the level by
case-insensitive substring search with the claimed precedence — the HIGH
keywords 높음/critical/긴급 first, else the LOW keywords 낮음/일상/단순, else
보통 (the separate 보통-containment branch of the code coincides with the
default). -/
theorem C4_importance_level (s : String) : (analyzeImportance s).level = specLevel s := by
  show levelOf s = specLevel s
  unfold levelOf specLevel
  simp only [ite_self]

set_option maxHeartbeats 1600000 in
/-- C5: the reason derivation of `analyze_importance`.  On the spec's example
the label `중요도 평가:` and the level word `높음 -` are stripped, yielding the
exact reason `일정이 급박함` with level 높음; and whenever the three stripping
substitutions leave an empty string, the original raw input is used as the
reason instead. -/
theorem C5_importance_reason :
    analyzeImportance "중요도 평가: 높음 - 일정이 급박함" = ⟨"높음", "일정이 급박함"⟩ ∧
    ∀ s : String, cleanReasonL s.data = [] → (analyzeImportance s).reason = s := by
  constructor
  · decide
  · intro s h
    show (if cleanReasonL s.data = [] then s else ⟨cleanReasonL s.data⟩) = s
    rw [if_pos h]

theorem C5_importance_reason_witness :
    cleanReasonL ("높음" : String).data = [] ∧ (analyzeImportance "높음").reason = "높음" :=
  ⟨by decide, C5_importance_reason.2 "높음" (by decide)⟩

theorem foldl_append_eq_map {α β : Type} (f : α → β) (l : List α) (acc : List β) :
    l.foldl (fun a t => a ++ [f t]) acc = acc ++ l.map f := by
  induction l generalizing acc with
  | nil => simp
  | cons t ts ih => simp [List.foldl_cons, ih]

/-- C6: conversation flattening renders each transcript line as
`"{display_name} ({time}): {text}"`, where the display name is the
speaker-mapping entry when present and the raw speaker id otherwise, joins the
lines with newlines, and produces the empty string for an empty transcript
list. -/
theorem C6_conversation_flattening (request : SummaryRequest) :
    conversationText request = String.intercalate "\n"
      (request.transcripts.map (fun t =>
        ((List.lookup t.speaker request.speakerMapping).getD t.speaker)
          ++ " (" ++ t.time ++ "): " ++ t.text)) ∧
    (request.transcripts = [] → conversationText request = "") := by
  have hl : conversationLines request =
      request.transcripts.map (renderLine request.speakerMapping) := by
    unfold conversationLines
    simpa using foldl_append_eq_map (renderLine request.speakerMapping) request.transcripts []
  constructor
  · unfold conversationText
    rw [hl]
    rfl
  · intro h
    unfold conversationText
    rw [hl, h]
    rfl

theorem C6_conversation_flattening_witness :
    conversationText ⟨[], "2024-01-01", [], "general"⟩ = "" :=
  (C6_conversation_flattening ⟨[], "2024-01-01", [], "general"⟩).2 rfl

theorem filterMap_strip_eq (l : List String) :
    l.filterMap (fun k => if pyStrip k = "" then none else some (pyStrip k)) =
    (l.map pyStrip).filter (fun t => t != "") := by
  induction l with
  | nil => rfl
  | cons k ks ih =>
    by_cases h : pyStrip k = ""
    · simp [List.filterMap_cons, List.filter_cons, h, ih]
    · simp [List.filterMap_cons, List.filter_cons, h, ih]

/-- C7: keyword parsing cleans with the keyword prefix pattern, splits on
commas, trims each token, and discards empty tokens while preserving order and
duplicates (the comprehension equals trim-then-filter on the split pieces);
and the spec's example input parses to `["예산", "일정", "보안"]`. -/
theorem C7_keyword_parsing :
    (∀ keywordsRaw : String, parseKeywords keywordsRaw =
      ((pySplitComma (cleanText keywordsRaw TaskPat.keyword)).map pyStrip).filter
        (fun t => t != "")) ∧
    parseKeywords "키워드: 예산, 일정,  보안 , " = ["예산", "일정", "보안"] := by
  constructor
  · intro keywordsRaw
    unfold parseKeywords
    exact filterMap_strip_eq _
  · decide

theorem levelOf_cases (s : String) :
    (analyzeImportance s).level = "높음" ∨ (analyzeImportance s).level = "낮음" ∨
    (analyzeImportance s).level = "보통" := by
  show levelOf s = "높음" ∨ levelOf s = "낮음" ∨ levelOf s = "보통"
  unfold levelOf
  simp only [ite_self]
  split
  · exact Or.inl rfl
  · split
    · exact Or.inr (Or.inl rfl)
    · exact Or.inr (Or.inr rfl)

/-- C8: the composed two-stage pipeline
`map_importance_to_enum(analyze_importance(s).level)` always yields exactly one
of "HIGH"/"MEDIUM"/"LOW", and does so iff the classifier chose
높음/보통/낮음 respectively — despite the two stages using different keyword
sets, the mapper is deterministic on the classifier's three possible outputs. -/
theorem C8_two_stage_enum (s : String) :
    (mapImportanceToEnum (analyzeImportance s).level = "HIGH" ∨
     mapImportanceToEnum (analyzeImportance s).level = "MEDIUM" ∨
     mapImportanceToEnum (analyzeImportance s).level = "LOW") ∧
    (mapImportanceToEnum (analyzeImportance s).level = "HIGH" ↔
      (analyzeImportance s).level = "높음") ∧
    (mapImportanceToEnum (analyzeImportance s).level = "LOW" ↔
      (analyzeImportance s).level = "낮음") ∧
    (mapImportanceToEnum (analyzeImportance s).level = "MEDIUM" ↔
      (analyzeImportance s).level = "보통") := by
  rcases levelOf_cases s with h | h | h <;> rw [h] <;> decide

/-- C9: for a task type outside the five fixed tasks, `call_hyperclova` fails
with a plain `KeyError` from the prompt-dictionary lookup — which sits before
the HTTP request and outside the `try`/`except`, so it is not an
`HTTPException` — and no request that is actually sent ever carries the
defensive 500-token default budget. -/
theorem C9_unknown_task :
    (∀ (taskType conversationTxt userJob : String) (resp : HttpResponse),
      taskType ∉ (["회의목적", "주요안건", "전체요약", "중요도", "키워드"] : List String) →
      callHyperclova conversationTxt taskType userJob resp =
        Except.error (.keyError taskType)) ∧
    (∀ conversationTxt taskType userJob : String,
      sentMaxTokens conversationTxt taskType userJob ≠ some 500) := by
  constructor
  · intro taskType conversationTxt userJob resp h
    have h1 : taskType ≠ "회의목적" := by rintro rfl; exact h (by decide)
    have h2 : taskType ≠ "주요안건" := by rintro rfl; exact h (by decide)
    have h3 : taskType ≠ "전체요약" := by rintro rfl; exact h (by decide)
    have h4 : taskType ≠ "중요도" := by rintro rfl; exact h (by decide)
    have h5 : taskType ≠ "키워드" := by rintro rfl; exact h (by decide)
    simp [callHyperclova, buildRequestBody, promptFor, h1, h2, h3, h4, h5]
  · intro conversationTxt taskType userJob
    by_cases e1 : taskType = "회의목적"
    · simp [sentMaxTokens, buildRequestBody, promptFor, currentMaxTokens, tokenSettings, e1]
    · by_cases e2 : taskType = "주요안건"
      · simp [sentMaxTokens, buildRequestBody, promptFor, currentMaxTokens, tokenSettings, e1, e2]
      · by_cases e3 : taskType = "전체요약"
        · simp [sentMaxTokens, buildRequestBody, promptFor, currentMaxTokens, tokenSettings,
            e1, e2, e3]
        · by_cases e4 : taskType = "중요도"
          · simp [sentMaxTokens, buildRequestBody, promptFor, currentMaxTokens, tokenSettings,
              e1, e2, e3, e4]
          · by_cases e5 : taskType = "키워드"
            · simp [sentMaxTokens, buildRequestBody, promptFor, currentMaxTokens, tokenSettings,
                e1, e2, e3, e4, e5]
            · simp [sentMaxTokens, buildRequestBody, promptFor, e1, e2, e3, e4, e5]

theorem C9_unknown_task_witness :
    ("번역" ∉ (["회의목적", "주요안건", "전체요약", "중요도", "키워드"] : List String)) ∧
    callHyperclova "" "번역" "general" ⟨200, "", none⟩ = Except.error (.keyError "번역") ∧
    sentMaxTokens "" "키워드" "general" ≠ some 500 :=
  ⟨by decide, C9_unknown_task.1 "번역" "" "general" ⟨200, "", none⟩ (by decide),
    C9_unknown_task.2 "" "키워드" "general"⟩

/-- C10: in the success path, the completion text falls back to the stripped
plain `result.text` field exactly when the nested `result.message.content`
chain yields the empty string — which happens both when the content field is
present but empty and when any link of the chain is absent. -/
theorem C10_content_fallback (data : ClovaData) :
    (contentField data = "" → extractResultText data = pyStrip (textField data)) ∧
    (contentField data = "" ↔
      ((data.result.bind ClovaResult.message).bind ClovaMessage.content = none ∨
       (data.result.bind ClovaResult.message).bind ClovaMessage.content = some "")) := by
  constructor
  · intro h
    unfold extractResultText
    rw [if_pos h]
  · rcases data with ⟨st, res⟩
    rcases res with _ | ⟨msg, txt⟩
    · simp [contentField]
    · rcases msg with _ | ⟨cnt⟩
      · simp [contentField]
      · rcases cnt with _ | c
        · simp [contentField]
        · simp [contentField]

theorem C10_content_fallback_witness :
    contentField ⟨none, some ⟨some ⟨some ""⟩, some "  hi "⟩⟩ = "" ∧
    extractResultText ⟨none, some ⟨some ⟨some ""⟩, some "  hi "⟩⟩ =
      pyStrip (textField ⟨none, some ⟨some ⟨some ""⟩, some "  hi "⟩⟩) :=
  ⟨by decide, (C10_content_fallback ⟨none, some ⟨some ⟨some ""⟩, some "  hi "⟩⟩).1 (by decide)⟩

end SummaryService
